import Mathlib

/-!
Verification of the docu/doqu document-mapping layer.

This file gives a shallow embedding, in Lean, of the core of the repository:

* `src/docu/document_base.py` — `DocumentSavedState`, `Document` (construction,
  `__setitem__`, `__getitem__`, `__eq__`, `_fill_defaults`, `validate`, `save`,
  lazy reference resolution);
* `src/docu/backend_base.py` — `BaseStorageAdapter._decorate`, `ProcessorManager`
  (`register` / `unregister`);
* `src/docu/ext/shelve_db/` — the shelve storage/query adapter (`_do_search`,
  `where`/`where_not`/`order_by`/`count` and the lookup table in `lookups.py`),
  together with `CachedIterator` from `src/docu/utils/data_structures.py`;
* `src/docu/ext/mongodb/lookups.py` — the `between` meta-lookup expansion and
  `MongoLookupManager.combine_conditions`;
* `src/docu/ext/shelve_db/converters.py` and
  `src/doqu/ext/tokyo_tyrant/converters.py` — `ReferenceConverter`.

Python values are modeled by an explicit datatype (`Val`); Python exceptions by
an error type (`PyErr`); methods that may raise are modeled either as functions
returning the updated object paired with `Option PyErr` (the object is returned
unchanged when the exception is raised before any mutation, as in the source) or
as `Except` values.  Python dictionaries are modeled as association lists in
insertion order; truthiness of the relevant objects is modeled explicitly where
the source relies on it.
-/

set_option linter.unusedVariables false

namespace Docu

/-- Python values stored in document fields in this development: `None`,
strings (`unicode`) and integers. -/
inductive Val where
  | pynone
  | pystr (s : String)
  | pyint (n : Int)
  deriving DecidableEq, Repr

/-- Python truthiness of an optional string attribute (`None` and the empty
string are falsy). -/
def pyStrOptTruthy : Option String → Bool
  | none => false
  | some s => s ≠ ""

/-- Storage adapters are modeled by numeric identifiers of live (connected)
adapter objects; `BaseStorageAdapter.__nonzero__` makes a connected adapter
truthy, and `==` between adapters is object identity, i.e. equality of ids. -/
abbrev StorageId := Nat

/-- Model of `DocumentSavedState` (document_base.py lines 57-123): storage reference,
primary key, and the last raw record snapshot. -/
structure DocumentSavedState where
  storage : Option StorageId
  key : Option String
  data : Option (List (String × Val))
  deriving DecidableEq, Repr

/-- Model of `DocumentSavedState.__nonzero__`: `bool(self.storage or self.key)`. -/
def DocumentSavedState.truthy (s : DocumentSavedState) : Bool :=
  s.storage.isSome || pyStrOptTruthy s.key

/-- Model of `DocumentSavedState.__eq__` (lines 85-89): `True` exactly when `self` has a
truthy storage and key, `other` is truthy, and both storage and key match. -/
def DocumentSavedState.eqPy (s other : DocumentSavedState) : Bool :=
  if s.storage.isSome && pyStrOptTruthy s.key && other.truthy then
    s.storage == other.storage && s.key == other.key
  else
    false

/-- Python truthiness of an optional raw-record argument (a dict: `{}` is
falsy, `None` is falsy). -/
def optDataTruthy : Option (List (String × Val)) → Bool
  | none => false
  | some l => l ≠ []

/-- Model of `DocumentSavedState.update` (lines 112-123): empty values are ignored; each
attribute is only overwritten by a truthy value, except `data` which is
replaced whenever it is not `None`. -/
def DocumentSavedState.update (s : DocumentSavedState) (storage : Option StorageId)
    (key : Option String) (data : Option (List (String × Val))) : DocumentSavedState :=
  if !(storage.isSome || pyStrOptTruthy key || optDataTruthy data) then s
  else
    { storage := storage <|> s.storage
      key := if pyStrOptTruthy key then key else s.key
      data := match data with
              | none => s.data
              | some l => some l }

/-- Declared field datatypes of the modeled document classes.  The classes
modeled by this core declare only primitive types; fields declared with a
`Document` subclass (references) are modeled separately below. -/
inductive DType where
  | uni
  | int
  deriving DecidableEq, Repr

/-- Model of `isinstance(value, datatype)` for the modeled datatypes. -/
def instanceOf : Val → DType → Bool
  | .pystr _, .uni => true
  | .pyint _, .int => true
  | _, _ => false

/-- Python exceptions raised by the modeled code. -/
inductive PyErr where
  | keyError (msg : String)
  | validationError (msg : String)
  | attributeError (msg : String)
  | runtimeError (msg : String)
  | assertionError (msg : String)
  deriving DecidableEq, Repr

/-- Outcome of one custom validator applied to a value
(`validators.py`): success, `StopValidation` (short-circuits the remaining
chain without failing) or `ValidationError`. -/
inductive VRes where
  | ok
  | stop
  | fail
  deriving DecidableEq, Repr

/-- A custom validator: `test(self, value)` receives the document data and the
value under test. -/
abbrev PyValidator := List (String × Val) → Val → VRes

/-- A declared default (`DocumentMetadata.defaults`): a plain value, a simple
function (called with the document instance, here its data), or another
callable (called without arguments) — `Document._fill_defaults`, lines
514-523. -/
inductive DefaultSpec where
  | plain (v : Val)
  | fnDoc (f : List (String × Val) → Val)
  | fnNullary (f : Unit → Val)

/-- Model of `DocumentMetadata` (document_base.py lines 126-207), restricted to the
attributes the modeled code paths read.  `structure_` stands for the
per-class `structure` map (field name → datatype). -/
structure DocumentMetadata where
  structure_ : List (String × DType)
  validators : List (String × List PyValidator)
  defaults : List (String × DefaultSpec)
  item_set_processors : List (String × (Val → Val))
  item_get_processors : List (String × (Val → Val))
  outgoing_processors : List (String × (Val → Val))
  break_on_invalid_incoming_data : Bool

/-- Python dict assignment `d[k] = v` on an association list: replaces the
value at the (unique) occurrence of `k`, or appends a new entry. -/
def setAssoc {α : Type} : List (String × α) → String → α → List (String × α)
  | [], k, v => [(k, v)]
  | p :: rest, k, v => if p.1 = k then (k, v) :: rest else p :: setAssoc rest k v

/-- A `Document` instance: the `_data` mapping and the `_saved_state`. -/
structure Document where
  data : List (String × Val)
  state : DocumentSavedState
  deriving DecidableEq, Repr

/-- The saved state of a freshly constructed instance (`__init__`, line 385). -/
def emptyState : DocumentSavedState := ⟨none, none, none⟩

/-- Python truthiness of a document instance: neither `Document` nor `DotDict`
nor `ProxyDict` defines `__nonzero__`, so CPython falls back to
`ProxyDict.__len__`: an instance is truthy iff its data mapping is
non-empty. -/
def Document.truthy (d : Document) : Bool := d.data.length ≠ 0

/-- Model of `Document.__eq__` (lines 308-345): `if not other: return False`; the
`hasattr(other, _saved_state)` test holds for document arguments; otherwise the
two saved states are compared. -/
def docEq (d other : Document) : Bool :=
  if ¬ other.truthy then false
  else DocumentSavedState.eqPy d.state other.state

/-- Model of `Document._validate_value_type` (lines 626-649) for the modeled classes.
For a field absent from the declared structure (in particular any field of a
free-form class) the datatype is `None`: the `issubclass(None, Document)` test
evaluates to `False` on the interpreter the repository targets (the test suite
constructs `Document(foo=123)` and free-form assignments successfully,
`tests/test_document.py`), and the final guard `datatype and not
isinstance(...)` is falsy, so any value is accepted. -/
def validateValueType (m : DocumentMetadata) (key : String) (v : Val) : Option PyErr :=
  if v = .pynone then none
  else
    match m.structure_.lookup key with
    | none => none
    | some dt => if instanceOf v dt then none else some (.validationError key)

/-- Model of `Document._validate_value_custom` (lines 612-624): validators run in
order; `StopValidation` ends the chain successfully, a failure raises. -/
def runValidators (doc : List (String × Val)) (v : Val) : List PyValidator → Option PyErr
  | [] => none
  | t :: ts =>
    match t doc v with
    | .ok => runValidators doc v ts
    | .stop => none
    | .fail => some (.validationError "value is invalid")

/-- Model of `Document._validate_value` (lines 605-610): type check first, then the
custom validator chain. -/
def validateValue (m : DocumentMetadata) (doc : List (String × Val)) (key : String)
    (v : Val) : Option PyErr :=
  match validateValueType m key v with
  | some e => some e
  | none => runValidators doc v ((m.validators.lookup key).getD [])

/-- Model of `Document.__setitem__` (lines 447-455).  Returns the updated document
paired with the raised exception, if any; when an exception is raised the
receiver is returned unchanged, since in the source the raise happens before
any mutation. -/
def setitem (m : DocumentMetadata) (d : Document) (key : String) (value : Val) :
    Document × Option PyErr :=
  if m.structure_ ≠ [] && (m.structure_.lookup key).isNone then
    (d, some (.keyError key))
  else
    let value := match m.item_set_processors.lookup key with
                 | some f => f value
                 | none => value
    match validateValue m d.data key value with
    | some e => (d, some e)
    | none => ({ d with data := setAssoc d.data key value }, none)

/-- Model of `dict.fromkeys(self.meta.structure)` (line 387): every declared field is
present, mapped to `None`. -/
def initData (m : DocumentMetadata) : List (String × Val) :=
  m.structure_.map (fun p => (p.1, Val.pynone))

/-- The keyword loop of `Document.__init__` (lines 390-398): each argument goes
through `__setitem__`; a `ValidationError` is swallowed unless
`break_on_invalid_incoming_data` is set (the field is left unset), any other
exception (in particular the `KeyError` for an unknown field) propagates. -/
def constructLoop (m : DocumentMetadata) :
    Document → List (String × Val) → Document × Option PyErr
  | d, [] => (d, none)
  | d, (k, v) :: rest =>
    match setitem m d k v with
    | (d2, none) => constructLoop m d2 rest
    | (d2, some (.validationError msg)) =>
      if m.break_on_invalid_incoming_data then (d2, some (.validationError msg))
      else constructLoop m d2 rest
    | (d2, some e) => (d2, some e)

/-- Model of `Document.__init__` (lines 383-424).  The backward-relation descriptors
installed at the end only touch the referenced classes, not this instance. -/
def construct (m : DocumentMetadata) (kw : List (String × Val)) : Document × Option PyErr :=
  constructLoop m { data := initData m, state := emptyState } kw

/-- Model of `BaseStorageAdapter.get` via `_decorate` (backend_base.py lines
88-127) for the shelve adapter.  With a non-empty declared structure the
per-field loop evaluates `name in model.meta.serialized` (line 104) inside a
`try` that catches only `ValueError`; `DocumentMetadata` never initializes a
`serialized` attribute (document_base.py lines 161-180 — and `fields.py`
lines 123-133, the only writer, would itself raise before ever creating it),
so in this source the structured branch raises `AttributeError` on its first
iteration and no instance is produced.  With an empty structure the raw
record is taken as is, the instance is constructed (an exception from
`__init__` propagates) and its state is populated with the current storage,
the key and the raw record. -/
def decorate (m : DocumentMetadata) (sid : StorageId) (key : String)
    (data : List (String × Val)) : Except PyErr Document :=
  if m.structure_ ≠ [] then
    .error (.attributeError "DocumentMetadata object has no attribute serialized")
  else
    match construct m data with
    | (_, some e) => .error e
    | (inst, none) =>
      .ok { inst with
            state := DocumentSavedState.update emptyState (some sid) (some key) (some data) }

/-- A sequence of attempted local mutations through `__setitem__`; a failed
assignment raises and leaves the document as it was. -/
def applySets (m : DocumentMetadata) (d : Document) (asgs : List (String × Val)) : Document :=
  asgs.foldl (fun d a => (setitem m d a.1 a.2).1) d

/-- Model of `Document.__getitem__` (lines 347-378) for a field of a class without
reference-typed fields: the stored value with the field's
`item_get_processors` entry applied; `None` when the key is absent (as seen
through `MutableMapping.get`).  NOTE: in the source, line 378 returns
`super().__getitem__(key)` — the raw stored value — so the processed value is
discarded on this path and the hook is effectively inert; no class modeled in
this development registers an `item_get_processors` entry, making the two
readings coincide everywhere below. -/
def getitemPrim (m : DocumentMetadata) (d : Document) (key : String) : Option Val :=
  (d.data.lookup key).map (fun v =>
    match m.item_get_processors.lookup key with
    | some f => f v
    | none => v)

/-- Model of `self.get(name)` (`MutableMapping.get`): `__getitem__` result, or `None` on
a missing key. -/
def docGet (m : DocumentMetadata) (d : Document) (key : String) : Val :=
  (getitemPrim m d key).getD .pynone

/-- Evaluation of one declared default (`_fill_defaults` lines 514-523):
a `types.FunctionType` value is called with the instance, any other callable
without arguments, a plain value is used as is. -/
def evalDefault (d : Document) : DefaultSpec → Val
  | .plain v => v
  | .fnDoc f => f d.data
  | .fnNullary f => f ()

/-- The loop of `Document._fill_defaults` (lines 491-524): for each declared
default, if the current value is `None` or the empty string, the evaluated
default is assigned through `__setitem__`; an exception there propagates,
keeping the mutations already made. -/
def fillLoop (m : DocumentMetadata) :
    Document → List (String × DefaultSpec) → Document × Option PyErr
  | d, [] => (d, none)
  | d, (name, spec) :: rest =>
    let cur := docGet m d name
    if cur = .pynone ∨ cur = .pystr "" then
      match setitem m d name (evalDefault d spec) with
      | (d2, none) => fillLoop m d2 rest
      | (d2, some e) => (d2, some e)
    else fillLoop m d rest

/-- Model of `Document._fill_defaults`. -/
def fillDefaults (m : DocumentMetadata) (d : Document) : Document × Option PyErr :=
  fillLoop m d m.defaults

/-- The loop of `Document.validate` (lines 1018-1041): `self.iteritems()`
yields each key of `_data` with its `__getitem__` value, and `_validate_value`
is applied to each pair; the first failure raises.  (As noted at
`getitemPrim`, the `item_get_processors` application is inert in the source
and no modeled class registers one, so both readings coincide below.) -/
def validateLoop (m : DocumentMetadata) (d : Document) :
    List (String × Val) → Option PyErr
  | [] => none
  | (k, v0) :: rest =>
    let v := match m.item_get_processors.lookup k with
             | some f => f v0
             | none => v0
    match validateValue m d.data k v with
    | some e => some e
    | none => validateLoop m d rest

/-- Model of `Document.validate`. -/
def validateDoc (m : DocumentMetadata) (d : Document) : Option PyErr :=
  validateLoop m d d.data

/-- The data-preparation step of `Document.save` (lines 875-895): the prior raw
snapshot is copied and the fields are merged into it — with a declared
structure, every structural field (its `outgoing_processors` entry applied
when the value is not `None`) converted through `storage.value_to_db`;
otherwise every field of `_data` converted likewise.  `toDb` is the backend's
converter (`NoopConverter` throughout the shelve backend for the modeled
types). -/
def mergeData (m : DocumentMetadata) (toDb : Val → Val) (d : Document) :
    List (String × Val) :=
  let base := d.state.data.getD []
  if m.structure_ ≠ [] then
    m.structure_.foldl (fun acc p =>
      let value := (d.data.lookup p.1).getD .pynone
      let value :=
        if value ≠ .pynone then
          match m.outgoing_processors.lookup p.1 with
          | some f => f value
          | none => value
        else value
      setAssoc acc p.1 (toDb value)) base
  else
    d.data.foldl (fun acc p => setAssoc acc p.1 (toDb p.2)) base

/-- Model of `Document.save` (lines 831-926).  `bsave` is the storage's `save`
primitive (it receives the prepared data and the primary key to use, and
returns the key under which the record was stored).  The result is the
document as left by the call (mutated in place by `_fill_defaults` even when
a later step raises), the backend call that was made (`none` when the save
aborted before reaching the storage — recording the data and primary key
passed), and the returned key or the exception raised:

1. without a storage argument and without a storage in the saved state,
   `AttributeError` (lines 851-854);
2. `_fill_defaults` (line 866), then `validate` (line 868) — a failure aborts;
3. the data is merged and converted (lines 875-895);
4. the primary key is kept only if `keep_key` is set or the target storage is
   the one in the saved state, else `None` is passed (lines 908-913);
5. the storage saves; an empty returned key fails the assert (line 920);
6. `_saved_state.update(key=key, storage=storage, data=data)` (line 923). -/
def save (m : DocumentMetadata) (toDb : Val → Val)
    (bsave : List (String × Val) → Option String → String)
    (d : Document) (storageArg : Option StorageId) (keepKey : Bool) :
    Document × Option (List (String × Val) × Option String) × Except PyErr String :=
  let storageResolved : Option StorageId :=
    match storageArg with
    | some s => some s
    | none => d.state.storage
  match storageResolved with
  | none => (d, none, .error (.attributeError "storage is not defined"))
  | some storage =>
    match fillDefaults m d with
    | (d2, some e) => (d2, none, .error e)
    | (d2, none) =>
      match validateDoc m d2 with
      | some e => (d2, none, .error e)
      | none =>
        let data := mergeData m toDb d2
        let primaryKey :=
          if keepKey || d2.state.storage == some storage then d2.state.key
          else none
        let key := bsave data primaryKey
        if key = "" then
          (d2, some (data, primaryKey),
           .error (.assertionError "storage must return primary key of saved item"))
        else
          ({ d2 with state := d2.state.update (some storage) (some key) (some data) },
           some (data, primaryKey), .ok key)

/-!  Lazy reference resolution (`Document.__getitem__` lines 347-378 and
`Document._get_document_by_ref` lines 526-560), for a field declared with a
`Document` subclass (a plain single reference, not `OneToManyRelation`). -/

/-- The value of a reference-typed field: `None`, a raw primary key (a string,
as stored in the database), or an already-resolved document instance of the
referenced class (its primary key and its data). -/
inductive RVal where
  | pynone
  | rawKey (k : String)
  | docInst (pk : String) (payload : List (String × Val))
  deriving DecidableEq, Repr

/-- Python truthiness of a reference-field value: the empty string is falsy,
and a document instance is truthy iff its data mapping is non-empty. -/
def RVal.truthy : RVal → Bool
  | .pynone => false
  | .rawKey k => k ≠ ""
  | .docInst _ payload => payload.length ≠ 0

/-- A document of a class with one reference-typed field: its reference data
and its saved state (the snapshot plays no role here). -/
structure RDoc where
  data : List (String × RVal)
  state : DocumentSavedState
  deriving Repr

/-- Model of `Document.__getitem__` on a reference-typed field.  `stubGet` is the
storage's `get` for the referenced class, instrumented: resolving key `k`
yields the instance `RVal.docInst k (stubGet k)` and counts as one fetch.
Following the source: the raw value is read from `_data` (`KeyError` if
absent); `_get_document_by_ref` returns a falsy value as is, returns an
already-resolved instance as is (the `isinstance` assert holds for instances
produced by the storage), raises when the saved state is falsy (the source's
`RuntimeError` construction at lines 544-548 references the undefined name
`key` and so actually dies with `NameError`; it is modeled as the
`runtimeError` value here, the claims only relying on an error being raised),
calls `self._saved_state.storage.get` when a storage is known (when the state
is truthy through its key alone, `storage` is `None` and the attribute access
on it raises); finally `__setitem__` stores the result back in `_data` (the
write-back passes validation: instances of the referenced class, raw strings
and `None` are all accepted by `_validate_value_type`).  The `Nat` component
counts the storage fetches performed by the call. -/
def refGetitem (d : RDoc) (field : String) (stubGet : String → List (String × Val)) :
    Except PyErr (RDoc × RVal × Nat) :=
  match d.data.lookup field with
  | none => .error (.keyError field)
  | some value =>
    if ¬ value.truthy then
      .ok ({ d with data := setAssoc d.data field value }, value, 0)
    else
      match value with
      | .pynone => .ok ({ d with data := setAssoc d.data field value }, value, 0)
      | .docInst pk payload =>
        .ok ({ d with data := setAssoc d.data field (RVal.docInst pk payload) },
             .docInst pk payload, 0)
      | .rawKey k =>
        if ¬ d.state.truthy then
          .error (.runtimeError "cannot resolve lazy reference: storage is not defined")
        else
          match d.state.storage with
          | none => .error (.attributeError "NoneType object has no attribute get")
          | some _ =>
            let inst := RVal.docInst k (stubGet k)
            .ok ({ d with data := setAssoc d.data field inst }, inst, 1)

/-!  `ReferenceConverter` (`ext/shelve_db/converters.py` lines 53-63; the
`doqu/ext/tokyo_tyrant/converters.py` version, lines 269-285, has the
identical `to_db` body). -/

/-- A value reaching the converter: a primitive, or a `Document` instance
(its primary key — `None` when never saved — and its data). -/
inductive CVal where
  | prim (v : Val)
  | docRef (pk : Option String) (data : List (String × Val))
  deriving DecidableEq, Repr

/-- Model of `ReferenceConverter.to_db`.  `mint` is the (non-empty) key the storage
generates when the cascaded `value.save(storage)` happens; the `Bool` records
whether that save was performed.  Source: `if value and hasattr(value, 'pk')`
(a document instance is truthy iff its data is non-empty); `if value.pk:
return value.pk`; otherwise `value.save(storage)` — which sets `value.pk` —
and then `return value`: the function returns the document instance itself,
not the key. -/
def refToDb (mint : String) (value : CVal) : CVal × Bool :=
  match value with
  | .docRef pk data =>
    if data.length ≠ 0 then
      match pk with
      | some k =>
        if k ≠ "" then (.prim (.pystr k), false)
        else (.docRef (some mint) data, true)
      | none => (.docRef (some mint) data, true)
    else (value, false)
  | v => (v, false)

/-- Model of `ReferenceConverter.from_db` (`NoopConverter.from_db` in the shelve
version, and the explicit identity in the tokyo_tyrant version): the raw
value is returned unchanged. -/
def refFromDb (value : CVal) : CVal := value

/-!  `ProcessorManager` (backend_base.py lines 382-458): the registry shared
by `ConverterManager` and `LookupManager`. -/

/-- A processor registry: the `processors` dict (keys modeled as strings,
processors of an arbitrary type) and the optional default processor. -/
structure ProcessorManager (α : Type) where
  processors : List (String × α)
  default : Option α
  deriving Repr

/-- Python `del d[k]` on an association list (the key occurs at most once in a
dict). -/
def removeKey {α : Type} : List (String × α) → String → List (String × α)
  | [], _ => []
  | p :: rest, k => if p.1 = k then rest else p :: removeKey rest k

/-- Model of `ProcessorManager.register` (lines 392-418): registering a key that is
already present raises `RuntimeError` before any mutation
(`_validate_processor` of the base manager accepts everything); otherwise the
processor is stored, becoming the default when requested. -/
def register {α : Type} (m : ProcessorManager α) (key : String) (proc : α)
    (isDefault : Bool) : ProcessorManager α × Option PyErr :=
  if (m.processors.lookup key).isSome then
    (m, some (.runtimeError ("already registered: " ++ key)))
  else
    ({ processors := m.processors ++ [(key, proc)]
       default := if isDefault then some proc else m.default }, none)

/-- Model of `ProcessorManager.unregister` (lines 420-432): removes and returns the
processor, raising `DataProcessorDoesNotExist` (modeled as a `keyError`) when
none is registered. -/
def unregister {α : Type} (m : ProcessorManager α) (key : String) :
    ProcessorManager α × Option PyErr :=
  match m.processors.lookup key with
  | none => (m, some (.keyError key))
  | some _ => ({ m with processors := removeKey m.processors key }, none)

/-!  The shelve backend (`src/docu/ext/shelve_db/__init__.py` and
`lookups.py`) and the result cache (`CachedIterator`,
`src/docu/utils/data_structures.py` lines 133-221). -/

namespace Shelve

/-- The lookup operators of the shelve `mapping` (lookups.py lines 37-58)
modeled here — the ones defined on the value types of this development.  The
remaining entries (`contains`, `contains_any`, `endswith`, `startswith`,
`matches`, `in`, `year`, `month`, `day`) operate on strings, containers or
dates and are not touched by any claim. -/
inductive Op where
  | equals
  | gt
  | gte
  | lt
  | lte
  | between
  | existsOp
  deriving DecidableEq, Repr

/-- The value a lookup is registered with: a single value, or a pair (the
`between` bounds, indexed `a[0]` and `a[1]` in the source). -/
inductive LVal where
  | single (v : Val)
  | pair (a b : Val)
  deriving DecidableEq, Repr

/-- CPython-2 `<` on the modeled values: numbers compare numerically, strings
lexicographically; across types, `None` sorts below everything and numbers
sort below strings (type-name ordering). -/
def pyLt : Val → Val → Bool
  | .pyint m, .pyint n => decide (m < n)
  | .pystr s, .pystr t => decide (s < t)
  | .pyint _, .pystr _ => true
  | .pystr _, .pyint _ => false
  | .pynone, .pynone => false
  | .pynone, _ => true
  | _, .pynone => false

/-- CPython-2 `<=` on the modeled values (the order is total). -/
def pyLe (a b : Val) : Bool := !(pyLt b a)

/-- One entry of the shelve `mapping` applied as `processor(value,
value_in_data)` (lookups.py lines 37-58): `a` is the lookup value, `b` the
(converted) value found in the record.  `between` is
`b is not None and a[0] <= b <= a[1]`; `gt` is `b is not None and a < b`;
`lt` is `b is not None and b < a`; and so on.  A lookup value of the wrong
shape would raise in Python and is never produced here. -/
def opMatches : Op → LVal → Val → Bool
  | .between, .pair a0 a1, b => b ≠ .pynone && pyLe a0 b && pyLe b a1
  | .equals, .single a, b => a == b
  | .existsOp, _, _ => true
  | .gt, .single a, b => b ≠ .pynone && pyLt a b
  | .gte, .single a, b => b ≠ .pynone && pyLe a b
  | .lt, .single a, b => b ≠ .pynone && pyLt b a
  | .lte, .single a, b => b ≠ .pynone && pyLe b a
  | _, _, _ => false

/-- One collected condition of a shelve query: the source stores the closure
produced by `autonegated_processor(mapping[op])` for a field name, a lookup
value and the negation flag; the closure is determined by this data. -/
structure Cond where
  name : String
  op : Op
  value : LVal
  negated : Bool
  deriving DecidableEq, Repr

/-- The closure built by `autonegated_processor` (lookups.py lines 59-71)
applied to a record: when the field is absent, `matches` is `False` (so a
negated condition holds); otherwise the record's value goes through the
injected `data_processor` — `converter_manager.to_db`, the identity for all
modeled value types — and the operator decides, with the negation flag
flipping the outcome. -/
def evalCond (c : Cond) (data : List (String × Val)) : Bool :=
  match data.lookup c.name with
  | none => c.negated
  | some raw =>
    let m := opMatches c.op c.value raw
    if c.negated then !m else m

/-- The shelve store contents: the `shelve` dict, keys to raw records, in
iteration order. -/
abbrev Store := List (String × List (String × Val))

/-- An immutable-per-instance shelve `QueryAdapter`: the storage it is bound
to and the collected `_conditions` and `_ordering` (`None` models the initial
`{}`). -/
structure QueryRec where
  storage : StorageId
  conditions : List Cond
  ordering : Option (List String × Bool)
  deriving Repr

/-- Model of `make_sort_key` (shelve_db/__init__.py lines 208-211): the list of the
record's values at the ordering names, skipping names whose value is absent
or `None`. -/
def makeSortKey (data : List (String × Val)) (names : List String) : List Val :=
  names.filterMap (fun n =>
    match data.lookup n with
    | some v => if v ≠ .pynone then some v else none
    | none => none)

/-- CPython-2 `<` on lists of values (elementwise, first difference
decides, a proper prefix is smaller). -/
def pyListLt : List Val → List Val → Bool
  | [], [] => false
  | [], _ :: _ => true
  | _ :: _, [] => false
  | a :: as_, b :: bs => if a = b then pyListLt as_ bs else pyLt a b

/-- Model of `QueryAdapter._do_search` (lines 193-220): iterate every record, keep the
primary keys of those satisfying all collected conditions; with an `_ordering`
spec, sort them by `make_sort_key` (via `LazySorted`, i.e. `sorted` with a
key function and a reverse flag). -/
def doSearch (store : Store) (q : QueryRec) : List String :=
  let found := (store.filter (fun r => q.conditions.all (fun c => evalCond c r.2))).map Prod.fst
  match q.ordering with
  | none => found
  | some (names, rev) =>
    let sortKey := fun pk => makeSortKey ((store.lookup pk).getD []) names
    if rev then
      found.mergeSort (fun x y => !(pyListLt (sortKey x) (sortKey y)))
    else
      found.mergeSort (fun x y => !(pyListLt (sortKey y) (sortKey x)))

/-- Model of `QueryAdapter.count` (lines 277-282): `len(list(self._do_search()))` —
the number of matching keys, fetched without materializing documents. -/
def countQ (store : Store) (q : QueryRec) : Nat := (doSearch store q).length

/-- Model of `ITER_CHUNK_SIZE` (data_structures.py line 133). -/
def ITER_CHUNK_SIZE : Nat := 100

/-- Full iteration of a `CachedIterator` (data_structures.py lines 154-169 and
210-221), started with `tail` the not-yet-yielded part of the cache and
`iter` the remaining underlying iterator (`none` once exhausted): the
generator yields the cached items; when the cache is exhausted and the
iterator is not, `_fill_cache` appends up to `ITER_CHUNK_SIZE` further items —
if the iterator ends during the fill it is set to `None`; an exactly-full
chunk leaves the (possibly empty) iterator in place for the next round. -/
def drain : List String → Option (List String) → List String
  | tail, none => tail
  | tail, some l =>
    if l.length < ITER_CHUNK_SIZE then
      tail ++ l
    else
      tail ++ l.take ITER_CHUNK_SIZE ++ drain [] (some (l.drop ITER_CHUNK_SIZE))
termination_by tail iter => match iter with
  | none => 0
  | some l => l.length + 1
decreasing_by
  have h1 : (l.drop ITER_CHUNK_SIZE).length = l.length - ITER_CHUNK_SIZE := List.length_drop ..
  unfold ITER_CHUNK_SIZE at *
  omega

/-- Model of `QueryAdapter._prepare_item` (line 238-239): `self.storage.get(self.model,
key)` — the record is fetched and decorated as a document of the query's
class; for a structured class this raises (see `decorate`). -/
def prepItem (m : DocumentMetadata) (sid : StorageId) (store : Store) (pk : String) :
    Except PyErr Document :=
  decorate m sid pk ((store.lookup pk).getD [])

/-- Model of `list(query)` on a fresh shelve query: `CachedIterator.__iter__` starts
with an empty cache over the `_do_search` iterator and yields each key through
`_prepare_item`; the first exception raised there propagates out of the
iteration, so no list is produced. -/
def listQ (m : DocumentMetadata) (sid : StorageId) (store : Store) (q : QueryRec) :
    Except PyErr (List Document) :=
  (drain [] (some (doSearch store q))).mapM (prepItem m sid store)

/-- An incoming `**conditions` entry of `where`/`where_not`: the field name,
the operator (`none` when the lookup has no `__op` suffix — the manager then
falls back to the default processor, `equals`) and the lookup value. -/
abbrev Lookup := String × Option Op × LVal

/-- Model of `BaseQueryAdapter._get_native_conditions` (backend_base.py lines 281-304)
over the shelve lookup manager: each lookup is split into name and operation,
resolved to its registered processor (the default, `equals`, when no
operation is given) and becomes one condition closure carrying the negation
flag. -/
def natConds (lookups : List Lookup) (negate : Bool) : List Cond :=
  lookups.map (fun l => ⟨l.1, l.2.1.getD .equals, l.2.2, negate⟩)

/-- Model of `QueryAdapter._clone` (lines 250-256): a *new* `QueryAdapter` is
constructed from the same storage and model, the receiver's conditions
extended by the extra ones, and the extra ordering (or the receiver's when no
extra is given).  The heap of live query objects is modeled as a list indexed
by position; the clone is appended and its index returned, the receiver's
entry untouched. -/
def heapClone (h : List QueryRec) (i : Nat) (extraC : List Cond)
    (extraO : Option (List String × Bool)) : List QueryRec × Nat :=
  let q := h.getD i ⟨0, [], none⟩
  (h ++ [{ storage := q.storage
           conditions := q.conditions ++ extraC
           ordering := match extraO with
                       | some o => some o
                       | none => q.ordering }],
   h.length)

/-- Model of `QueryAdapter.where` (lines 262-268) via `_where` (lines 241-248). -/
def heapWhere (h : List QueryRec) (i : Nat) (lookups : List Lookup) :
    List QueryRec × Nat :=
  heapClone h i (natConds lookups false) none

/-- Model of `QueryAdapter.where_not` (lines 270-275): `_where` with `negate=True`. -/
def heapWhereNot (h : List QueryRec) (i : Nat) (lookups : List Lookup) :
    List QueryRec × Nat :=
  heapClone h i (natConds lookups true) none

/-- Model of `QueryAdapter.order_by` (lines 339-377): the names are reversed (the
source gives the leftmost name priority by reversing before `sorted`) and the
sort spec replaces the receiver's ordering in a clone. -/
def heapOrderBy (h : List QueryRec) (i : Nat) (names : List String) (rev : Bool) :
    List QueryRec × Nat :=
  heapClone h i [] (some (names.reverse, rev))

end Shelve

/-!  The MongoDB lookup registry (`src/docu/ext/mongodb/lookups.py`): the
`between` meta-lookup and `MongoLookupManager.combine_conditions`. -/

namespace Mongo

/-- A native clause produced by one primitive lookup processor wrapped by
`autonegated_lookup` without negation: `{name: {$op: value}}` (lines
112-124); the clause dict maps a native operator string to a value. -/
abbrev MongoCond := String × List (String × Int)

/-- Model of `lookup_processors` entries for `gt` and `lt` (lines 88 and 93): each
maps a value to its native pair. -/
def primProcessor (op : String) (v : Int) : String × Int := (op, v)

/-- Model of `meta_lookups['between']` (lines 102-105): the bounds expand to the
abstract pairs `('gt', values[0])` and `('lt', values[1])`. -/
def metaBetweenPairs (values : Int × Int) : List (String × Int) :=
  [("gt", values.1), ("lt", values.2)]

/-- The native operator string each abstract operation resolves to through
`lookup_processors` (`gt` to `$gt`, `lt` to `$lt`). -/
def nativeOp (op : String) : String :=
  if op = "gt" then "$gt" else if op = "lt" then "$lt" else op

/-- Model of `meta_lookup(meta_lookups['between'])` applied without negation (lines
133-144 with 112-131): each generated pair is resolved through its registered
simple processor, yielding one `{name: {$op: value}}` clause per pair. -/
def mongoBetween (name : String) (values : Int × Int) : List MongoCond :=
  (metaBetweenPairs values).map (fun p =>
    (name, [primProcessor (nativeOp p.1) p.2]))

/-- Model of `MongoLookupManager.combine_conditions` (lines 35-65) on dict-shaped
clauses: conditions are merged into a single spec, the clause dicts of a
repeated field name union-updated. -/
def combineConditions (conds : List MongoCond) : List (String × List (String × Int)) :=
  conds.foldl (fun spec c =>
    match spec.lookup c.1 with
    | none => spec ++ [c]
    | some clause => setAssoc spec c.1 (c.2.foldl (fun acc p => setAssoc acc p.1 p.2) clause))
    []

end Mongo

/-!  Helper lemmas. -/

theorem setitem_state (m : DocumentMetadata) (d : Document) (k : String) (v : Val) :
    ((setitem m d k v).1).state = d.state := by
  unfold setitem
  split
  · rfl
  · dsimp only
    split
    · rfl
    · rfl

theorem applySets_state (m : DocumentMetadata) (asgs : List (String × Val)) :
    ∀ d : Document, (applySets m d asgs).state = d.state := by
  induction asgs with
  | nil => intro d; rfl
  | cons a rest ih =>
    intro d
    show (applySets m ((setitem m d a.1 a.2).1) rest).state = d.state
    rw [ih, setitem_state]

theorem constructLoop_state (m : DocumentMetadata) (kw : List (String × Val)) :
    ∀ d : Document, ((constructLoop m d kw).1).state = d.state := by
  induction kw with
  | nil => intro d; rfl
  | cons a rest ih =>
    intro d
    rcases a with ⟨k, v⟩
    unfold constructLoop
    have hst := setitem_state m d k v
    rcases hs : setitem m d k v with ⟨d2, e⟩
    rw [hs] at hst
    match e with
    | none => simpa [ih d2] using hst
    | some (.validationError msg) =>
      by_cases hb : m.break_on_invalid_incoming_data
      · simpa [hb] using hst
      · simp only [hb]
        simpa [ih d2] using hst
    | some (.keyError msg) => simpa using hst
    | some (.attributeError msg) => simpa using hst
    | some (.runtimeError msg) => simpa using hst
    | some (.assertionError msg) => simpa using hst

theorem construct_state (m : DocumentMetadata) (kw : List (String × Val)) :
    ((construct m kw).1).state = emptyState :=
  constructLoop_state m kw _

theorem decorate_structured_error (m : DocumentMetadata) (sid : StorageId) (k : String)
    (r : List (String × Val)) (hs : m.structure_ ≠ []) :
    decorate m sid k r =
      .error (.attributeError "DocumentMetadata object has no attribute serialized") := by
  unfold decorate
  rw [if_pos hs]

theorem decorate_ok_state (m : DocumentMetadata) (sid : StorageId) (k : String)
    (r : List (String × Val)) (d : Document) (hk : k ≠ "")
    (h : decorate m sid k r = .ok d) : d.state = ⟨some sid, some k, some r⟩ := by
  unfold decorate at h
  by_cases hs : m.structure_ ≠ []
  · rw [if_pos hs] at h
    exact absurd h (by simp)
  · rw [if_neg hs] at h
    rcases hc : construct m r with ⟨inst, err⟩
    rw [hc] at h
    match err with
    | some e => exact absurd h (by simp)
    | none =>
      injection h with h1
      rw [← h1]
      dsimp only
      unfold DocumentSavedState.update
      simp [pyStrOptTruthy, optDataTruthy, hk, emptyState]

theorem fillLoop_state (m : DocumentMetadata) (l : List (String × DefaultSpec)) :
    ∀ d : Document, ((fillLoop m d l).1).state = d.state := by
  induction l with
  | nil => intro d; rfl
  | cons a rest ih =>
    intro d
    rcases a with ⟨name, spec⟩
    show (if docGet m d name = Val.pynone ∨ docGet m d name = Val.pystr ""
          then match setitem m d name (evalDefault d spec) with
               | (d2, none) => fillLoop m d2 rest
               | (d2, some e) => (d2, some e)
          else fillLoop m d rest).1.state = d.state
    by_cases hc : docGet m d name = Val.pynone ∨ docGet m d name = Val.pystr ""
    · rw [if_pos hc]
      have hst := setitem_state m d name (evalDefault d spec)
      rcases hs : setitem m d name (evalDefault d spec) with ⟨d2, e⟩
      rw [hs] at hst
      match e with
      | none => rw [ih d2]; exact hst
      | some e => exact hst
    · rw [if_neg hc]
      exact ih d

theorem fillDefaults_state (m : DocumentMetadata) (d : Document) :
    ((fillDefaults m d).1).state = d.state :=
  fillLoop_state m m.defaults d

theorem lookup_setAssoc_self {α : Type} (l : List (String × α)) (k : String) (v : α) :
    (setAssoc l k v).lookup k = some v := by
  induction l with
  | nil => simp [setAssoc, List.lookup]
  | cons p rest ih =>
    unfold setAssoc
    by_cases h : p.1 = k
    · simp [h, List.lookup]
    · simp only [h, if_false]
      rw [List.lookup]
      have : (k == p.1) = false := by
        simp [(Ne.symm h)]
      simp [this, ih]

theorem setAssoc_of_lookup_eq {α : Type} [DecidableEq α] (l : List (String × α))
    (k : String) (v : α) (h : l.lookup k = some v) : setAssoc l k v = l := by
  induction l with
  | nil => simp [List.lookup] at h
  | cons p rest ih =>
    rw [List.lookup] at h
    unfold setAssoc
    by_cases hk : p.1 = k
    · have : (k == p.1) = true := by simp [hk]
      rw [this] at h
      simp only [hk, if_true]
      simp only [Option.some.injEq] at h
      rw [← h, ← hk]
    · have : (k == p.1) = false := by simp [Ne.symm hk]
      rw [this] at h
      simp only [hk, if_false]
      rw [ih h]

theorem removeKey_sublist {α : Type} (l : List (String × α)) (k : String) :
    List.Sublist (removeKey l k) l := by
  induction l with
  | nil => simp [removeKey]
  | cons p rest ih =>
    unfold removeKey
    by_cases h : p.1 = k
    · simp [h]
    · simp only [h, if_false]
      exact ih.cons₂ p

theorem lookup_none_of_not_mem_keys {α : Type} (l : List (String × α)) (k : String)
    (h : k ∉ l.map Prod.fst) : l.lookup k = none := by
  induction l with
  | nil => rfl
  | cons p rest ih =>
    simp only [List.map_cons, List.mem_cons] at h
    push_neg at h
    rw [List.lookup]
    have : (k == p.1) = false := by simp [h.1]
    rw [this]
    exact ih h.2

theorem mem_keys_of_lookup_some {α : Type} (l : List (String × α)) (k : String)
    (h : (l.lookup k).isSome) : k ∈ l.map Prod.fst := by
  induction l with
  | nil => simp [List.lookup] at h
  | cons p rest ih =>
    rw [List.lookup] at h
    by_cases hk : k = p.1
    · simp [hk]
    · have : (k == p.1) = false := by simp [hk]
      rw [this] at h
      simp only [List.map_cons, List.mem_cons]
      exact Or.inr (ih h)

theorem lookup_removeKey_self {α : Type} (l : List (String × α)) (k : String)
    (hnd : (l.map Prod.fst).Nodup) : (removeKey l k).lookup k = none := by
  induction l with
  | nil => rfl
  | cons p rest ih =>
    simp only [List.map_cons, List.nodup_cons] at hnd
    unfold removeKey
    by_cases h : p.1 = k
    · simp only [h, if_true]
      apply lookup_none_of_not_mem_keys
      rw [← h]
      exact hnd.1
    · simp only [h, if_false]
      rw [List.lookup]
      have : (k == p.1) = false := by simp [Ne.symm h]
      rw [this]
      exact ih hnd.2

theorem lookup_append_right {α : Type} (l : List (String × α)) (k : String) (v : α)
    (h : l.lookup k = none) : (l ++ [(k, v)]).lookup k = some v := by
  induction l with
  | nil => simp [List.lookup]
  | cons p rest ih =>
    rw [List.lookup] at h
    rcases hb : (k == p.1) with _ | _
    · rw [hb] at h
      rw [List.cons_append, List.lookup, hb]
      exact ih h
    · rw [hb] at h
      exact absurd h (by simp)

theorem validateValueType_cases (m : DocumentMetadata) (key : String) (v : Val) :
    validateValueType m key v = none ∨
      validateValueType m key v = some (.validationError key) := by
  unfold validateValueType
  split
  · exact Or.inl rfl
  · split
    · exact Or.inl rfl
    · split
      · exact Or.inl rfl
      · exact Or.inr rfl

theorem runValidators_cases (doc : List (String × Val)) (v : Val) :
    ∀ ts : List PyValidator,
      runValidators doc v ts = none ∨
        runValidators doc v ts = some (.validationError "value is invalid") := by
  intro ts
  induction ts with
  | nil => exact Or.inl rfl
  | cons t rest ih =>
    unfold runValidators
    match t doc v with
    | .ok => exact ih
    | .stop => exact Or.inl rfl
    | .fail => exact Or.inr rfl

theorem validateValue_cases (m : DocumentMetadata) (doc : List (String × Val))
    (key : String) (v : Val) :
    validateValue m doc key v = none ∨
      ∃ msg, validateValue m doc key v = some (.validationError msg) := by
  unfold validateValue
  rcases validateValueType_cases m key v with h | h
  · rw [h]
    rcases runValidators_cases doc v ((m.validators.lookup key).getD []) with h2 | h2
    · exact Or.inl h2
    · exact Or.inr ⟨_, h2⟩
  · rw [h]
    exact Or.inr ⟨key, rfl⟩

theorem setitem_cases (m : DocumentMetadata) (d : Document) (k : String) (v : Val) :
    (setitem m d k v).2 = none ∨
      ((setitem m d k v).2 = some (.keyError k) ∧ m.structure_ ≠ [] ∧
        m.structure_.lookup k = none) ∨
      (∃ msg, (setitem m d k v).2 = some (.validationError msg)) := by
  unfold setitem
  split
  · rename_i hcond
    rw [Bool.and_eq_true] at hcond
    refine Or.inr (Or.inl ⟨rfl, ?_, ?_⟩)
    · simpa using hcond.1
    · simpa [Option.isNone_iff_eq_none] using hcond.2
  · dsimp only
    rcases validateValue_cases m d.data k
        (match m.item_set_processors.lookup k with
         | some f => f v
         | none => v) with h | ⟨msg, h⟩
    · rw [h]
      exact Or.inl rfl
    · rw [h]
      exact Or.inr (Or.inr ⟨msg, rfl⟩)

theorem construct_freeform_ok (m : DocumentMetadata) (hs : m.structure_ = [])
    (hb : m.break_on_invalid_incoming_data = false) :
    ∀ (kw : List (String × Val)) (d : Document), (constructLoop m d kw).2 = none := by
  intro kw
  induction kw with
  | nil => intro d; rfl
  | cons a rest ih =>
    intro d
    rcases a with ⟨k0, v0⟩
    rcases hset : setitem m d k0 v0 with ⟨d2, e2⟩
    have hc := setitem_cases m d k0 v0
    rw [hset] at hc
    dsimp only at hc
    unfold constructLoop
    rw [hset]
    rcases hc with h0 | ⟨hke, hne2, hlk0⟩ | ⟨msg, hval⟩
    · subst h0
      exact ih d2
    · exact absurd hs hne2
    · subst hval
      dsimp only
      rw [hb]
      exact ih d2

theorem decorate_freeform_ok (m : DocumentMetadata) (hs : m.structure_ = [])
    (hb : m.break_on_invalid_incoming_data = false)
    (sid : StorageId) (k : String) (r : List (String × Val)) :
    decorate m sid k r =
      .ok { (construct m r).1 with
            state := DocumentSavedState.update emptyState (some sid) (some k) (some r) } := by
  unfold decorate
  rw [if_neg (by simp [hs])]
  have he : (construct m r).2 = none := construct_freeform_ok m hs hb r _
  rcases hc : construct m r with ⟨inst, err⟩
  rw [hc] at he
  dsimp only at he
  subst he
  rfl

theorem mapM_ok_of_forall {α β : Type} (f : α → Except PyErr β) (g : α → β)
    (hf : ∀ a, f a = .ok (g a)) :
    ∀ l : List α, l.mapM f = .ok (l.map g) := by
  intro l
  induction l with
  | nil => rfl
  | cons a rest ih =>
    rw [List.mapM_cons, hf a, ih]
    rfl

theorem drain_bounded (n : Nat) :
    ∀ (tail l : List String), l.length ≤ n → Shelve.drain tail (some l) = tail ++ l := by
  induction n with
  | zero =>
    intro tail l hl
    have h0 : l.length < Shelve.ITER_CHUNK_SIZE := by
      unfold Shelve.ITER_CHUNK_SIZE
      omega
    rw [Shelve.drain, if_pos h0]
  | succ n ih =>
    intro tail l hl
    by_cases h0 : l.length < Shelve.ITER_CHUNK_SIZE
    · rw [Shelve.drain, if_pos h0]
    · rw [Shelve.drain, if_neg h0]
      have hlen : (l.drop Shelve.ITER_CHUNK_SIZE).length ≤ n := by
        rw [List.length_drop]
        unfold Shelve.ITER_CHUNK_SIZE at *
        omega
      rw [ih [] (l.drop Shelve.ITER_CHUNK_SIZE) hlen]
      simp [List.take_append_drop]

theorem drain_some (tail l : List String) : Shelve.drain tail (some l) = tail ++ l :=
  drain_bounded l.length tail l (Nat.le_refl _)

theorem save_run (m : DocumentMetadata) (toDb : Val → Val)
    (bsave : List (String × Val) → Option String → String)
    (d : Document) (s2 : StorageId) (kk : Bool)
    (hf : (fillDefaults m d).2 = none)
    (hv : validateDoc m (fillDefaults m d).1 = none) :
    save m toDb bsave d (some s2) kk =
      (let d2 := (fillDefaults m d).1
       let data := mergeData m toDb d2
       let pk := if kk || d2.state.storage == some s2 then d2.state.key else none
       let key := bsave data pk
       if key = "" then
         (d2, some (data, pk),
          .error (.assertionError "storage must return primary key of saved item"))
       else
         ({ d2 with state := d2.state.update (some s2) (some key) (some data) },
          some (data, pk), .ok key)) := by
  unfold save
  rcases hfd : fillDefaults m d with ⟨d2, e2⟩
  rw [hfd] at hf
  dsimp only at hf
  subst hf
  rw [hfd] at hv
  dsimp only at hv
  dsimp only
  rw [hv]

theorem save_abort (m : DocumentMetadata) (toDb : Val → Val)
    (bsave : List (String × Val) → Option String → String)
    (d : Document) (s2 : StorageId) (kk : Bool) (e : PyErr)
    (hf : (fillDefaults m d).2 = none)
    (hv : validateDoc m (fillDefaults m d).1 = some e) :
    save m toDb bsave d (some s2) kk = ((fillDefaults m d).1, none, .error e) := by
  unfold save
  rcases hfd : fillDefaults m d with ⟨d2, e2⟩
  rw [hfd] at hf
  dsimp only at hf
  subst hf
  rw [hfd] at hv
  dsimp only at hv
  dsimp only
  rw [hv]

/-!  Concrete fixtures used by witnesses and counterexamples. -/

/-- A free-form document class: empty structure, no validators, defaults or
processors (e.g. the `Document` base class itself). -/
def freeMeta : DocumentMetadata := ⟨[], [], [], [], [], [], false⟩

/-- A document class with one unicode field, as in the `Note` example. -/
def noteMeta : DocumentMetadata := ⟨[("text", .uni)], [], [], [], [], [], false⟩

/-- A shelve store seeded with five records whose field `f` takes the values
1 through 5. -/
def store5 : Shelve.Store :=
  [("1", [("f", Val.pyint 1)]), ("2", [("f", Val.pyint 2)]),
   ("3", [("f", Val.pyint 3)]), ("4", [("f", Val.pyint 4)]),
   ("5", [("f", Val.pyint 5)])]

/-- The condition collected by `where(f__between=(2,5))` on the shelve
backend. -/
def betweenCond : Shelve.Cond :=
  ⟨"f", .between, .pair (.pyint 2) (.pyint 5), false⟩

/-- The shelve query carrying exactly that condition. -/
def qBetween : Shelve.QueryRec := ⟨0, [betweenCond], none⟩

/-- A structured document class over the seeded records' field `f`. -/
def meta5 : DocumentMetadata := ⟨[("f", .int)], [], [], [], [], [], false⟩

/-- The persisted document of the C2 witness: a constructed instance saved
into storage 1, whose backend mints key "5" — afterwards its saved state is
(storage 1, key "5") with the stored record as snapshot. -/
def wdocC2 : Document :=
  (save noteMeta id (fun _ pk => pk.getD "5")
     (construct noteMeta [("text", Val.pystr "foo")]).1 (some 1) false).1

theorem save_abort_state_storage (m : DocumentMetadata) (toDb : Val → Val)
    (bsave : List (String × Val) → Option String → String)
    (d : Document) (s0 : StorageId) (kk : Bool) (e : PyErr)
    (hs : d.state.storage = some s0)
    (hf : (fillDefaults m d).2 = none)
    (hv : validateDoc m (fillDefaults m d).1 = some e) :
    save m toDb bsave d none kk = ((fillDefaults m d).1, none, .error e) := by
  unfold save
  rw [hs]
  rcases hfd : fillDefaults m d with ⟨d2, e2⟩
  rw [hfd] at hf
  dsimp only at hf
  subst hf
  rw [hfd] at hv
  dsimp only at hv
  dsimp only
  rw [hv]

theorem lookup_isSome_of_mem_keys {α : Type} (l : List (String × α)) (k : String)
    (h : k ∈ l.map Prod.fst) : (l.lookup k).isSome := by
  induction l with
  | nil => simp at h
  | cons p rest ih =>
    simp only [List.map_cons, List.mem_cons] at h
    rw [List.lookup]
    by_cases hk : k = p.1
    · have : (k == p.1) = true := by simp [hk]
      rw [this]
      rfl
    · have hb : (k == p.1) = false := by simp [hk]
      rw [hb]
      exact ih (h.resolve_left hk)

theorem not_mem_keys_of_lookup_none {α : Type} (l : List (String × α)) (k : String)
    (h : l.lookup k = none) : k ∉ l.map Prod.fst := by
  intro hmem
  have := lookup_isSome_of_mem_keys l k hmem
  rw [h] at this
  exact absurd this (by simp)

theorem nodup_keys_append_new {α : Type} (l : List (String × α)) (k : String) (v : α)
    (hnd : (l.map Prod.fst).Nodup) (h : l.lookup k = none) :
    ((l ++ [(k, v)]).map Prod.fst).Nodup := by
  simp only [List.map_append]
  refine List.Nodup.append hnd (by simp) ?_
  intro x hx hy
  simp only [List.map_cons, List.map_nil, List.mem_singleton] at hy
  rw [hy] at hx
  exact not_mem_keys_of_lookup_none l k h hx

theorem setitem_unknown (m : DocumentMetadata) (d : Document) (key : String) (v : Val)
    (hs : m.structure_ ≠ []) (hlk : m.structure_.lookup key = none) :
    setitem m d key v = (d, some (.keyError key)) := by
  unfold setitem
  rw [if_pos (by simp [hs, hlk])]

theorem setitem_freeform (m : DocumentMetadata) (d : Document) (key : String) (v : Val)
    (hs : m.structure_ = []) (hval : m.validators.lookup key = none)
    (hproc : m.item_set_processors.lookup key = none) :
    setitem m d key v = ({ d with data := setAssoc d.data key v }, none) := by
  have hty : validateValueType m key v = none := by
    unfold validateValueType
    split
    · rfl
    · rw [hs]
      rfl
  have hvv : validateValue m d.data key v = none := by
    unfold validateValue
    rw [hty, hval]
    rfl
  unfold setitem
  rw [if_neg (by simp [hs])]
  dsimp only
  rw [hproc]
  dsimp only
  rw [hvv]

theorem constructLoop_unknown (m : DocumentMetadata)
    (hb : m.break_on_invalid_incoming_data = false) (hs : m.structure_ ≠ []) :
    ∀ (kw : List (String × Val)) (d : Document) (key : String) (v : Val),
      (key, v) ∈ kw → m.structure_.lookup key = none →
      ∃ k2, m.structure_.lookup k2 = none ∧
        (constructLoop m d kw).2 = some (.keyError k2) := by
  intro kw
  induction kw with
  | nil =>
    intro d key v hmem
    simp at hmem
  | cons a rest ih =>
    intro d key v hmem hlk
    rcases a with ⟨k0, v0⟩
    rcases List.mem_cons.mp hmem with heq | hmem2
    · obtain ⟨h1, h2⟩ := Prod.mk.inj heq
      subst h1
      unfold constructLoop
      rw [setitem_unknown m d key v0 hs hlk]
      exact ⟨key, hlk, rfl⟩
    · rcases hset : setitem m d k0 v0 with ⟨d2, e2⟩
      have hc := setitem_cases m d k0 v0
      rw [hset] at hc
      dsimp only at hc
      unfold constructLoop
      rw [hset]
      rcases hc with h0 | ⟨hke, hne2, hlk0⟩ | ⟨msg, hval⟩
      · subst h0
        exact ih d2 key v hmem2 hlk
      · subst hke
        exact ⟨k0, hlk0, rfl⟩
      · subst hval
        dsimp only
        rw [hb]
        exact ih d2 key v hmem2 hlk

theorem heapClone_frame (h : List Shelve.QueryRec) (i : Nat) (c : List Shelve.Cond)
    (o : Option (List String × Bool)) (hi : i < h.length) :
    (Shelve.heapClone h i c o).2 ≠ i
    ∧ (Shelve.heapClone h i c o).1[i]? = h[i]?
    ∧ (Shelve.heapClone h i c o).1.getD i ⟨0, [], none⟩ = h.getD i ⟨0, [], none⟩ := by
  have hget : (Shelve.heapClone h i c o).1[i]? = h[i]? := by
    show (h ++ [_])[i]? = h[i]?
    rw [List.getElem?_append, if_pos hi]
  refine ⟨(Nat.ne_of_lt hi).symm, hget, ?_⟩
  rw [List.getD_eq_getElem?_getD, List.getD_eq_getElem?_getD, hget]

end Docu

open Docu

/-- C1.  Two never-saved instances (regardless of class, construction
arguments and later local mutation) never compare equal.  `get(s, C, k)` with
a structured class C raises `AttributeError` (the dangling `meta.serialized`
access in `_decorate`), producing no instance at all; two instances actually
obtained via `get` — necessarily under free-form classes — from the same
storage under the same non-empty key compare equal regardless of class,
record and independent local mutation, provided the right-hand instance is
truthy, i.e. its data mapping is non-empty. -/
theorem claimC1 :
    (∀ (m1 m2 : DocumentMetadata) (kw1 kw2 as1 as2 : List (String × Val)),
      docEq (applySets m1 (construct m1 kw1).1 as1)
            (applySets m2 (construct m2 kw2).1 as2) = false)
    ∧ (∀ (m : DocumentMetadata) (sid : StorageId) (k : String)
        (r : List (String × Val)),
        m.structure_ ≠ [] →
        decorate m sid k r =
          .error (.attributeError "DocumentMetadata object has no attribute serialized"))
    ∧ (∀ (m1 m2 : DocumentMetadata) (sid : StorageId) (k : String)
        (r1 r2 as1 as2 : List (String × Val)) (d1 d2 : Document),
        decorate m1 sid k r1 = .ok d1 →
        decorate m2 sid k r2 = .ok d2 →
        k ≠ "" →
        (applySets m2 d2 as2).data ≠ [] →
        docEq (applySets m1 d1 as1) (applySets m2 d2 as2) = true) := by
  refine ⟨?_, ?_, ?_⟩
  · intro m1 m2 kw1 kw2 as1 as2
    have hst : (applySets m1 (construct m1 kw1).1 as1).state = emptyState := by
      rw [applySets_state, construct_state]
    unfold docEq
    split
    · rfl
    · rw [hst]
      unfold DocumentSavedState.eqPy
      simp [emptyState]
  · intro m sid k r hs
    exact decorate_structured_error m sid k r hs
  · intro m1 m2 sid k r1 r2 as1 as2 d1 d2 hd1 hd2 hk hne
    have h1 : (applySets m1 d1 as1).state = ⟨some sid, some k, some r1⟩ := by
      rw [applySets_state]
      exact decorate_ok_state m1 sid k r1 d1 hk hd1
    have h2 : (applySets m2 d2 as2).state = ⟨some sid, some k, some r2⟩ := by
      rw [applySets_state]
      exact decorate_ok_state m2 sid k r2 d2 hk hd2
    have htr : (applySets m2 d2 as2).truthy = true := by
      unfold Document.truthy
      simpa using fun h0 => hne (List.length_eq_zero.mp h0)
    unfold docEq
    rw [if_neg (by rw [htr]; exact not_not_intro rfl)]
    rw [h1, h2]
    unfold DocumentSavedState.eqPy
    simp [DocumentSavedState.truthy, pyStrOptTruthy, hk]

/-- C1 witness: two instances fetched from storage 1 under key "5" under the
free-form class (with different records), the first then locally mutated,
compare equal. -/
theorem claimC1_witness :
    docEq (applySets freeMeta
             ⟨[("text", Val.pystr "foo")], ⟨some 1, some "5", some [("text", Val.pystr "foo")]⟩⟩
             [("text", Val.pystr "quux")])
          (applySets freeMeta
             ⟨[("text", Val.pystr "bar")], ⟨some 1, some "5", some [("text", Val.pystr "bar")]⟩⟩
             []) = true :=
  claimC1.2.2 freeMeta freeMeta 1 "5" [("text", Val.pystr "foo")] [("text", Val.pystr "bar")]
    [("text", Val.pystr "quux")] []
    ⟨[("text", Val.pystr "foo")], ⟨some 1, some "5", some [("text", Val.pystr "foo")]⟩⟩
    ⟨[("text", Val.pystr "bar")], ⟨some 1, some "5", some [("text", Val.pystr "bar")]⟩⟩
    rfl rfl (by decide) (by decide)

/-- C1 counterexample: `get` with the structured `Note`-like class raises
`AttributeError` instead of producing an instance; and an instance of a
free-form class fetched under key "k" in storage 7 from an empty raw record
is *not* equal to an identically fetched instance (not even to itself),
although both saved states carry the same (storage, key) —
`Document.__eq__` first tests the truthiness of the right-hand operand, so
equality is not decided solely by the saved states. -/
theorem claimC1_counterexample :
    decorate noteMeta 7 "k" [("text", Val.pystr "foo")] =
      .error (.attributeError "DocumentMetadata object has no attribute serialized")
    ∧ decorate freeMeta 7 "k" [] = .ok ⟨[], ⟨some 7, some "k", some []⟩⟩
    ∧ docEq ⟨[], ⟨some 7, some "k", some []⟩⟩ ⟨[], ⟨some 7, some "k", some []⟩⟩ = false :=
  ⟨rfl, rfl, by decide⟩

/-- C3 (amended).  On the shelve backend, `where(f__between=(2,5))` over
records with f ∈ {1,2,3,4,5} returns exactly the records with f ∈ {2,3,4,5}:
its `between` operator is the *inclusive* check `a[0] <= b <= a[1]`.  On the
MongoDB backend, `between` is a meta-operator expanding to the two
independently resolved conditions `$gt`/`$lt`, which `combine_conditions`
AND-combines into one spec. -/
theorem claimC3 :
    Shelve.doSearch store5 qBetween = ["2", "3", "4", "5"]
    ∧ (∀ lo hi x : Int,
        Shelve.evalCond ⟨"f", .between, .pair (.pyint lo) (.pyint hi), false⟩
            [("f", Val.pyint x)] =
          (decide (lo ≤ x) && decide (x ≤ hi)))
    ∧ Mongo.combineConditions (Mongo.mongoBetween "f" (2, 5)) =
        [("f", [("$gt", 2), ("$lt", 5)])] := by
  refine ⟨by decide, ?_, by decide⟩
  intro lo hi x
  have e1 : ∀ a b : Int, (!decide (b < a)) = decide (a ≤ b) := by
    intro a b
    by_cases h : b < a
    · have h2 : ¬ a ≤ b := by omega
      simp [h, h2]
    · have h2 : a ≤ b := by omega
      simp [h, h2]
  show (!decide (x < lo) && !decide (hi < x)) = (decide (lo ≤ x) && decide (x ≤ hi))
  rw [e1, e1]

/-- C3 counterexample: the shelve result set is not {3, 4} — the record with
f = 2 (and the one with f = 5) is returned as well, so `between` does not
have strict gt/lt semantics on every backend that offers it. -/
theorem claimC3_counterexample :
    Shelve.doSearch store5 qBetween ≠ ["3", "4"] := by
  decide

/-- C4.  `ReferenceConverter.to_db` evaluated at a referenced document that
has no primary key yet: the cascaded save *is* performed (and mints key "99"
for the reference), but the function then returns the document instance
itself — never the primary-key string — contradicting the documented
encode-step contract; with a primary key present the key is returned, and the
decode step returns the raw value unchanged. -/
theorem claimC4 :
    refToDb "99" (.docRef none [("x", Val.pyint 1)]) =
      (.docRef (some "99") [("x", Val.pyint 1)], true)
    ∧ (∀ k : String, (refToDb "99" (.docRef none [("x", Val.pyint 1)])).1 ≠
        .prim (.pystr k))
    ∧ refToDb "99" (.docRef (some "7") [("x", Val.pyint 1)]) =
        (.prim (.pystr "7"), false)
    ∧ ∀ v : CVal, refFromDb v = v := by
  refine ⟨by decide, ?_, by decide, fun v => rfl⟩
  intro k
  rw [show refToDb "99" (.docRef none [("x", Val.pyint 1)]) =
      (.docRef (some "99") [("x", Val.pyint 1)], true) from by decide]
  simp

/-- C2.  Saving a persisted document (storage s0, key p) to a given storage
s2: the primary key passed to the backend's `save` is p exactly when
`keep_key` is set or s2 is the recorded storage, and `None` otherwise (so the
backend mints a fresh key); when the backend returns a non-empty key it
becomes the document's new pk, and an empty returned key fails the
assertion. -/
theorem claimC2 :
    ∀ (m : DocumentMetadata) (toDb : Val → Val)
      (bsave : List (String × Val) → Option String → String)
      (d : Document) (s0 s2 : StorageId) (p : String) (kk : Bool),
      d.state.storage = some s0 → d.state.key = some p →
      (fillDefaults m d).2 = none →
      validateDoc m (fillDefaults m d).1 = none →
      ((save m toDb bsave d (some s2) kk).2.1 =
          some (mergeData m toDb (fillDefaults m d).1,
                if kk || (s2 == s0) then some p else none))
      ∧ (bsave (mergeData m toDb (fillDefaults m d).1)
            (if kk || (s2 == s0) then some p else none) ≠ "" →
          (save m toDb bsave d (some s2) kk).2.2 =
            .ok (bsave (mergeData m toDb (fillDefaults m d).1)
                  (if kk || (s2 == s0) then some p else none))
          ∧ ((save m toDb bsave d (some s2) kk).1).state.key =
              some (bsave (mergeData m toDb (fillDefaults m d).1)
                     (if kk || (s2 == s0) then some p else none)))
      ∧ (bsave (mergeData m toDb (fillDefaults m d).1)
            (if kk || (s2 == s0) then some p else none) = "" →
          (save m toDb bsave d (some s2) kk).2.2 =
            .error (.assertionError "storage must return primary key of saved item")) := by
  intro m toDb bsave d s0 s2 p kk hs hp hf hv
  have hst : ((fillDefaults m d).1).state = d.state := fillDefaults_state m d
  have hcond : ((fillDefaults m d).1.state.storage == some s2) = (s2 == s0) := by
    rw [hst, hs]
    by_cases h : s2 = s0
    · subst h
      simp
    · have h2 : ¬ (s0 = s2) := fun hh => h hh.symm
      simp [h, h2]
  have hrun := save_run m toDb bsave d s2 kk hf hv
  dsimp only at hrun
  rw [hcond, hst, hp] at hrun
  by_cases hkey : bsave (mergeData m toDb (fillDefaults m d).1)
      (if kk || (s2 == s0) then some p else none) = ""
  · rw [if_pos hkey] at hrun
    refine ⟨?_, ?_, ?_⟩
    · rw [hrun]
    · intro hne
      exact absurd hkey hne
    · intro _
      rw [hrun]
  · rw [if_neg hkey] at hrun
    refine ⟨?_, ?_, ?_⟩
    · rw [hrun]
    · intro hne
      refine ⟨by rw [hrun], ?_⟩
      rw [hrun]
      dsimp only
      unfold DocumentSavedState.update
      rw [if_neg (by simp)]
      dsimp only
      rw [if_pos (by simpa [pyStrOptTruthy] using hkey)]
    · intro h0
      exact absurd h0 hkey

/-- C2 witness: a document persisted in storage 1 under key "5" (via an
initial save), saved again to storage 2 without `keep_key`: `None` is passed
to the backend (a fresh key "9" is minted) and "9" becomes the new pk. -/
theorem claimC2_witness :
    (save noteMeta id (fun _ pk => pk.getD "9") wdocC2 (some 2) false).2.1 =
      some (mergeData noteMeta id (fillDefaults noteMeta wdocC2).1, none)
    ∧ (save noteMeta id (fun _ pk => pk.getD "9") wdocC2 (some 2) false).2.2 = .ok "9"
    ∧ ((save noteMeta id (fun _ pk => pk.getD "9") wdocC2 (some 2) false).1).state.key =
        some "9" := by
  have h := claimC2 noteMeta id (fun _ pk => pk.getD "9") wdocC2 1 2 "5" false
    (by decide) (by decide) (by decide) (by decide)
  have h2 := h.2.1 (by decide)
  exact ⟨by simpa using h.1, by simpa using h2.1, by simpa using h2.2⟩

/-- C10.  When `_fill_defaults` succeeds but `validate` then fails, `save`
raises without calling the storage (no backend call is recorded) and leaves
the saved state unchanged — yet the instance it leaves behind is exactly the
default-filled one: the data mapping retains the values `_fill_defaults`
wrote (the fill happens before validation, overwriting fields whose current
value is `None` or the empty string). -/
theorem claimC10 :
    ∀ (m : DocumentMetadata) (toDb : Val → Val)
      (bsave : List (String × Val) → Option String → String)
      (d : Document) (s2 : StorageId) (kk : Bool) (e : PyErr),
      (fillDefaults m d).2 = none →
      validateDoc m (fillDefaults m d).1 = some e →
      save m toDb bsave d (some s2) kk = ((fillDefaults m d).1, none, .error e)
      ∧ ((fillDefaults m d).1).state = d.state := by
  intro m toDb bsave d s2 kk e hf hv
  exact ⟨save_abort m toDb bsave d s2 kk e hf hv, fillDefaults_state m d⟩

/-- The document class of the C10 witness: a unicode field `text` with a
declared default, and an `int` field `num` carrying a custom validator that
always fails. -/
def c10meta : DocumentMetadata :=
  ⟨[("text", .uni), ("num", .int)],
   [("num", [fun _ _ => VRes.fail])],
   [("text", .plain (Val.pystr "the default"))],
   [], [], [], false⟩

/-- C10 witness: the caller explicitly set `text` to the empty string; the
aborted save leaves behind the default-filled instance, whose `text` now
holds the default — the empty string was silently overwritten — while the
saved state is unchanged and no backend call happened. -/
theorem claimC10_witness :
    save c10meta id (fun _ _ => "1") (construct c10meta [("text", Val.pystr "")]).1
        (some 3) false =
      ((fillDefaults c10meta (construct c10meta [("text", Val.pystr "")]).1).1, none,
       .error (.validationError "value is invalid"))
    ∧ ((fillDefaults c10meta (construct c10meta [("text", Val.pystr "")]).1).1).state =
        ((construct c10meta [("text", Val.pystr "")]).1).state
    ∧ ((construct c10meta [("text", Val.pystr "")]).1).data.lookup "text" =
        some (Val.pystr "")
    ∧ ((fillDefaults c10meta (construct c10meta [("text", Val.pystr "")]).1).1).data.lookup
        "text" = some (Val.pystr "the default") := by
  have h := claimC10 c10meta id (fun _ _ => "1")
    (construct c10meta [("text", Val.pystr "")]).1 3 false
    (.validationError "value is invalid") (by decide) (by decide)
  exact ⟨h.1, h.2, by decide, by decide⟩

/-- C5.  Reading a reference field that holds a raw (non-empty) primary key:
when the saved state has a storage, exactly one fetch is performed, the
resolved instance replaces the raw key in the data mapping, and a second read
of the same field performs zero further fetches and leaves the document
unchanged; when the saved state has no storage, the read raises instead of
fetching. -/
theorem claimC5 :
    (∀ (d : RDoc) (field k : String) (stubGet : String → List (String × Val))
       (sid : StorageId),
      d.data.lookup field = some (.rawKey k) → k ≠ "" → d.state.storage = some sid →
      refGetitem d field stubGet =
        .ok (⟨setAssoc d.data field (.docInst k (stubGet k)), d.state⟩,
             .docInst k (stubGet k), 1)
      ∧ refGetitem ⟨setAssoc d.data field (.docInst k (stubGet k)), d.state⟩ field stubGet =
        .ok (⟨setAssoc d.data field (.docInst k (stubGet k)), d.state⟩,
             .docInst k (stubGet k), 0))
    ∧ (∀ (d : RDoc) (field k : String) (stubGet : String → List (String × Val)),
      d.data.lookup field = some (.rawKey k) → k ≠ "" → d.state.storage = none →
      ∃ e, refGetitem d field stubGet = .error e) := by
  constructor
  · intro d field k stubGet sid hlk hk hsid
    have htruthy : RVal.truthy (.rawKey k) = true := by
      simp [RVal.truthy, hk]
    have hstate : d.state.truthy = true := by
      unfold DocumentSavedState.truthy
      rw [hsid]
      simp
    constructor
    · unfold refGetitem
      rw [hlk]
      dsimp only
      rw [if_neg (by rw [htruthy]; exact not_not_intro rfl)]
      rw [if_neg (by rw [hstate]; exact not_not_intro rfl)]
      rw [hsid]
    · have hlk2 : (setAssoc d.data field (RVal.docInst k (stubGet k))).lookup field =
          some (.docInst k (stubGet k)) := lookup_setAssoc_self _ _ _
      have hre : setAssoc (setAssoc d.data field (RVal.docInst k (stubGet k))) field
          (RVal.docInst k (stubGet k)) = setAssoc d.data field (RVal.docInst k (stubGet k)) :=
        setAssoc_of_lookup_eq _ _ _ hlk2
      unfold refGetitem
      rw [hlk2]
      dsimp only
      split
      · rw [hre]
      · rw [hre]
  · intro d field k stubGet hlk hk hnone
    have htruthy : RVal.truthy (.rawKey k) = true := by
      simp [RVal.truthy, hk]
    unfold refGetitem
    rw [hlk]
    dsimp only
    rw [if_neg (by rw [htruthy]; exact not_not_intro rfl)]
    by_cases hkeyt : pyStrOptTruthy d.state.key = true
    · have hstate : d.state.truthy = true := by
        unfold DocumentSavedState.truthy
        rw [hkeyt]
        simp
      rw [if_neg (by rw [hstate]; exact not_not_intro rfl)]
      rw [hnone]
      exact ⟨_, rfl⟩
    · have hstate : d.state.truthy = false := by
        unfold DocumentSavedState.truthy
        rw [hnone]
        simpa using hkeyt
      rw [if_pos (by rw [hstate]; simp)]
      exact ⟨_, rfl⟩

/-- C5 witness: a persisted document whose `author` field holds the raw key
"a1": the first read fetches once and memoizes the instance, the second read
fetches zero times; a transient document with the same raw reference fails to
read. -/
theorem claimC5_witness :
    refGetitem ⟨[("author", .rawKey "a1")], ⟨some 3, some "d1", none⟩⟩ "author"
        (fun _ => [("name", Val.pystr "John")]) =
      .ok (⟨setAssoc [("author", .rawKey "a1")] "author"
              (.docInst "a1" [("name", Val.pystr "John")]), ⟨some 3, some "d1", none⟩⟩,
           .docInst "a1" [("name", Val.pystr "John")], 1)
    ∧ refGetitem ⟨setAssoc [("author", .rawKey "a1")] "author"
          (.docInst "a1" [("name", Val.pystr "John")]), ⟨some 3, some "d1", none⟩⟩ "author"
        (fun _ => [("name", Val.pystr "John")]) =
      .ok (⟨setAssoc [("author", .rawKey "a1")] "author"
              (.docInst "a1" [("name", Val.pystr "John")]), ⟨some 3, some "d1", none⟩⟩,
           .docInst "a1" [("name", Val.pystr "John")], 0)
    ∧ ∃ e, refGetitem ⟨[("author", .rawKey "a1")], ⟨none, none, none⟩⟩ "author"
        (fun _ => [("name", Val.pystr "John")]) = .error e := by
  have h1 := claimC5.1 ⟨[("author", .rawKey "a1")], ⟨some 3, some "d1", none⟩⟩ "author" "a1"
    (fun _ => [("name", Val.pystr "John")]) 3 (by decide) (by decide) (by decide)
  have h2 := claimC5.2 ⟨[("author", .rawKey "a1")], ⟨none, none, none⟩⟩ "author" "a1"
    (fun _ => [("name", Val.pystr "John")]) (by decide) (by decide) (by decide)
  exact ⟨h1.1, h1.2, h2⟩

/-- C6.  `where`, `where_not` and `order_by` on a shelve query each construct
a *new* query object (`_clone` builds a fresh adapter appended to the heap of
live objects, at a fresh index) and leave the receiver untouched, so the
results computed from the receiver are identical before and after the
call. -/
theorem claimC6 :
    ∀ (h : List Shelve.QueryRec) (i : Nat) (lookups : List Shelve.Lookup)
      (names : List String) (rev : Bool) (store : Shelve.Store),
      i < h.length →
      ((Shelve.heapWhere h i lookups).2 ≠ i
        ∧ (Shelve.heapWhere h i lookups).1[i]? = h[i]?
        ∧ Shelve.doSearch store ((Shelve.heapWhere h i lookups).1.getD i ⟨0, [], none⟩) =
            Shelve.doSearch store (h.getD i ⟨0, [], none⟩))
      ∧ ((Shelve.heapWhereNot h i lookups).2 ≠ i
        ∧ (Shelve.heapWhereNot h i lookups).1[i]? = h[i]?
        ∧ Shelve.doSearch store ((Shelve.heapWhereNot h i lookups).1.getD i ⟨0, [], none⟩) =
            Shelve.doSearch store (h.getD i ⟨0, [], none⟩))
      ∧ ((Shelve.heapOrderBy h i names rev).2 ≠ i
        ∧ (Shelve.heapOrderBy h i names rev).1[i]? = h[i]?
        ∧ Shelve.doSearch store ((Shelve.heapOrderBy h i names rev).1.getD i ⟨0, [], none⟩) =
            Shelve.doSearch store (h.getD i ⟨0, [], none⟩)) := by
  intro h i lookups names rev store hi
  unfold Shelve.heapWhere Shelve.heapWhereNot Shelve.heapOrderBy
  have h1 := heapClone_frame h i (Shelve.natConds lookups false) none hi
  have h2 := heapClone_frame h i (Shelve.natConds lookups true) none hi
  have h3 := heapClone_frame h i [] (some (names.reverse, rev)) hi
  exact ⟨⟨h1.1, h1.2.1, by rw [h1.2.2]⟩,
         ⟨h2.1, h2.2.1, by rw [h2.2.2]⟩,
         ⟨h3.1, h3.2.1, by rw [h3.2.2]⟩⟩

/-- C6 witness: on a one-query heap, each of the three calls yields a fresh
index, preserves the receiver's entry, and the receiver's results over the
five-record store are unchanged. -/
theorem claimC6_witness :
    ((Shelve.heapWhere [⟨0, [], none⟩] 0 [("f", some .gt, .single (.pyint 1))]).2 ≠ 0
      ∧ (Shelve.heapWhere [⟨0, [], none⟩] 0 [("f", some .gt, .single (.pyint 1))]).1[0]? =
          ([⟨0, [], none⟩] : List Shelve.QueryRec)[0]?
      ∧ Shelve.doSearch store5
          ((Shelve.heapWhere [⟨0, [], none⟩] 0
              [("f", some .gt, .single (.pyint 1))]).1.getD 0 ⟨0, [], none⟩) =
          Shelve.doSearch store5 (([⟨0, [], none⟩] : List Shelve.QueryRec).getD 0 ⟨0, [], none⟩))
    ∧ ((Shelve.heapWhereNot [⟨0, [], none⟩] 0 [("f", some .gt, .single (.pyint 1))]).2 ≠ 0
      ∧ (Shelve.heapWhereNot [⟨0, [], none⟩] 0 [("f", some .gt, .single (.pyint 1))]).1[0]? =
          ([⟨0, [], none⟩] : List Shelve.QueryRec)[0]?
      ∧ Shelve.doSearch store5
          ((Shelve.heapWhereNot [⟨0, [], none⟩] 0
              [("f", some .gt, .single (.pyint 1))]).1.getD 0 ⟨0, [], none⟩) =
          Shelve.doSearch store5 (([⟨0, [], none⟩] : List Shelve.QueryRec).getD 0 ⟨0, [], none⟩))
    ∧ ((Shelve.heapOrderBy [⟨0, [], none⟩] 0 ["f"] false).2 ≠ 0
      ∧ (Shelve.heapOrderBy [⟨0, [], none⟩] 0 ["f"] false).1[0]? =
          ([⟨0, [], none⟩] : List Shelve.QueryRec)[0]?
      ∧ Shelve.doSearch store5
          ((Shelve.heapOrderBy [⟨0, [], none⟩] 0 ["f"] false).1.getD 0 ⟨0, [], none⟩) =
          Shelve.doSearch store5
            (([⟨0, [], none⟩] : List Shelve.QueryRec).getD 0 ⟨0, [], none⟩)) :=
  claimC6 [⟨0, [], none⟩] 0 [("f", some .gt, .single (.pyint 1))] ["f"] false store5
    (by decide)

/-- C7.  `count()` (the number of keys produced by `_do_search`) works for
every query, but in this source `list(query)` cannot be computed for any
structured model class: materializing the first result goes through
`storage.get`/`_decorate`, whose structured branch raises `AttributeError`
(the dangling `meta.serialized`) — at the seeded five-record store, `count()`
returns 5 while `list(query)` raises.  Where the program can run — free-form,
non-strict classes — full iteration through the chunked `CachedIterator`
yields one document per matching key, and `count()` equals the length of
`list(query)` for every store, conditions and ordering (in particular across
cache-chunk boundaries). -/
theorem claimC7 :
    (Shelve.countQ store5 ⟨0, [], none⟩ = 5
      ∧ Shelve.listQ meta5 0 store5 ⟨0, [], none⟩ =
          .error (.attributeError "DocumentMetadata object has no attribute serialized"))
    ∧ (∀ (m : DocumentMetadata) (sid : StorageId) (store : Shelve.Store)
        (q : Shelve.QueryRec),
        m.structure_ = [] → m.break_on_invalid_incoming_data = false →
        ∃ ds, Shelve.listQ m sid store q = .ok ds
          ∧ Shelve.countQ store q = ds.length) := by
  refine ⟨⟨by decide, ?_⟩, ?_⟩
  · unfold Shelve.listQ
    rw [drain_some, List.nil_append]
    rw [show Shelve.doSearch store5 ⟨0, [], none⟩ = ["1", "2", "3", "4", "5"] from by decide]
    rw [List.mapM_cons]
    rw [show Shelve.prepItem meta5 0 store5 "1" =
        Except.error (.attributeError "DocumentMetadata object has no attribute serialized")
      from rfl]
    rfl
  intro m sid store q hs hb
  refine ⟨(Shelve.doSearch store q).map (fun pk =>
    { (construct m ((store.lookup pk).getD [])).1 with
      state := DocumentSavedState.update emptyState (some sid) (some pk)
                 (some ((store.lookup pk).getD [])) }), ?_, ?_⟩
  · unfold Shelve.listQ
    rw [drain_some, List.nil_append]
    exact mapM_ok_of_forall _ _
      (fun pk => decorate_freeform_ok m hs hb sid pk ((store.lookup pk).getD []))
      (Shelve.doSearch store q)
  · unfold Shelve.countQ
    rw [List.length_map]

/-- C7 witness: over the five seeded records under the free-form class, the
iteration succeeds and `count()` equals its length. -/
theorem claimC7_witness :
    ∃ ds, Shelve.listQ freeMeta 0 store5 ⟨0, [], none⟩ = .ok ds
      ∧ Shelve.countQ store5 ⟨0, [], none⟩ = ds.length :=
  claimC7.2 freeMeta 0 store5 ⟨0, [], none⟩ rfl rfl

/-- C8.  With a non-empty declared structure, assigning an undeclared field
raises `KeyError` and leaves the data mapping unchanged, and constructing an
instance with an undeclared field among the keyword arguments raises a
`KeyError` for an undeclared field; with an empty structure, assignment of
any field name (with no validator or set-processor registered under it)
succeeds and stores the value. -/
theorem claimC8 :
    (∀ (m : DocumentMetadata) (d : Document) (key : String) (v : Val),
      m.structure_ ≠ [] → m.structure_.lookup key = none →
      setitem m d key v = (d, some (.keyError key)))
    ∧ (∀ (m : DocumentMetadata) (kw : List (String × Val)) (key : String) (v : Val),
      m.break_on_invalid_incoming_data = false →
      m.structure_ ≠ [] → m.structure_.lookup key = none →
      (key, v) ∈ kw →
      ∃ k2, m.structure_.lookup k2 = none ∧
        (construct m kw).2 = some (.keyError k2))
    ∧ (∀ (m : DocumentMetadata) (d : Document) (key : String) (v : Val),
      m.structure_ = [] → m.validators.lookup key = none →
      m.item_set_processors.lookup key = none →
      setitem m d key v = ({ d with data := setAssoc d.data key v }, none)) := by
  refine ⟨?_, ?_, ?_⟩
  · intro m d key v hs hlk
    exact setitem_unknown m d key v hs hlk
  · intro m kw key v hb hs hlk hmem
    exact constructLoop_unknown m hb hs kw _ key v hmem hlk
  · intro m d key v hs hval hproc
    exact setitem_freeform m d key v hs hval hproc

/-- C8 witness: on the one-field `Note`-like class, assigning or constructing
with the undeclared field `location` raises `KeyError`; on the free-form base
class, assigning `location` succeeds. -/
theorem claimC8_witness :
    setitem noteMeta (construct noteMeta []).1 "location" (Val.pystr "moon") =
      ((construct noteMeta []).1, some (.keyError "location"))
    ∧ (∃ k2, noteMeta.structure_.lookup k2 = none ∧
        (construct noteMeta [("location", Val.pystr "moon")]).2 = some (.keyError k2))
    ∧ setitem freeMeta (construct freeMeta []).1 "location" (Val.pystr "moon") =
        ({ (construct freeMeta []).1 with
            data := setAssoc ((construct freeMeta []).1).data "location" (Val.pystr "moon") },
         none) := by
  refine ⟨?_, ?_, ?_⟩
  · exact claimC8.1 noteMeta (construct noteMeta []).1 "location" (Val.pystr "moon")
      (by decide) (by decide)
  · exact claimC8.2.1 noteMeta [("location", Val.pystr "moon")] "location" (Val.pystr "moon")
      (by decide) (by decide) (by decide) (by simp)
  · exact claimC8.2.2 freeMeta (construct freeMeta []).1 "location" (Val.pystr "moon")
      (by rfl) (by rfl) (by rfl)

/-- C9.  In a processor registry (the manager shared by converter and lookup
registries): registering under an already-taken key raises `RuntimeError` and
leaves the registry unchanged; after an explicit `unregister` the key is free
and registration under it succeeds, storing the processor; and both
operations preserve the at-most-one-processor-per-key invariant (no duplicate
keys). -/
theorem claimC9 :
    (∀ (α : Type) (m : ProcessorManager α) (key : String) (proc : α) (dflt : Bool),
      (m.processors.lookup key).isSome →
      register m key proc dflt =
        (m, some (.runtimeError ("already registered: " ++ key))))
    ∧ (∀ (α : Type) (m : ProcessorManager α) (key : String) (proc : α) (dflt : Bool),
      (m.processors.map Prod.fst).Nodup →
      ((unregister m key).1.processors.lookup key = none
        ∧ (register (unregister m key).1 key proc dflt).2 = none
        ∧ (register (unregister m key).1 key proc dflt).1.processors.lookup key =
            some proc))
    ∧ (∀ (α : Type) (m : ProcessorManager α) (key : String) (proc : α) (dflt : Bool),
      (m.processors.map Prod.fst).Nodup →
      (((register m key proc dflt).1.processors.map Prod.fst).Nodup
        ∧ ((unregister m key).1.processors.map Prod.fst).Nodup)) := by
  refine ⟨?_, ?_, ?_⟩
  · intro α m key proc dflt hsome
    unfold register
    rw [if_pos hsome]
  · intro α m key proc dflt hnd
    have hfree : (unregister m key).1.processors.lookup key = none := by
      unfold unregister
      rcases hlk : m.processors.lookup key with _ | p
      · exact hlk
      · exact lookup_removeKey_self m.processors key hnd
    refine ⟨hfree, ?_, ?_⟩
    · unfold register
      rw [if_neg (by rw [hfree]; simp)]
    · unfold register
      rw [if_neg (by rw [hfree]; simp)]
      exact lookup_append_right _ key proc hfree
  · intro α m key proc dflt hnd
    constructor
    · unfold register
      rcases hlk : m.processors.lookup key with _ | p
      · rw [if_neg (by simp)]
        exact nodup_keys_append_new m.processors key proc hnd hlk
      · rw [if_pos (by rfl)]
        exact hnd
    · unfold unregister
      rcases hlk : m.processors.lookup key with _ | p
      · exact hnd
      · exact hnd.sublist (List.Sublist.map Prod.fst (removeKey_sublist m.processors key))

/-- C9 witness: a registry holding a processor under "int": re-registering
"int" fails and leaves the registry unchanged; after unregistering, "int" is
free and registering it again succeeds. -/
theorem claimC9_witness :
    register (⟨[("int", 1)], none⟩ : ProcessorManager Nat) "int" 2 false =
      (⟨[("int", 1)], none⟩, some (.runtimeError ("already registered: " ++ "int")))
    ∧ (unregister (⟨[("int", 1)], none⟩ : ProcessorManager Nat)
        "int").1.processors.lookup "int" = none
    ∧ (register (unregister (⟨[("int", 1)], none⟩ : ProcessorManager Nat) "int").1
        "int" 2 false).2 = none
    ∧ (register (unregister (⟨[("int", 1)], none⟩ : ProcessorManager Nat) "int").1
        "int" 2 false).1.processors.lookup "int" = some 2 := by
  have h1 := claimC9.1 Nat ⟨[("int", 1)], none⟩ "int" 2 false (by decide)
  have h2 := claimC9.2.1 Nat ⟨[("int", 1)], none⟩ "int" 2 false (by decide)
  exact ⟨h1, h2.1, h2.2.1, h2.2.2⟩
